import Mathlib

/-!
Verification of the cpu-time library (tailhook/cpu-time).

The repository has two backends with an identical public surface:
  src/clock_gettime.rs (POSIX, clock_gettime with CPU-time clock ids) and
  src/windows.rs (Windows, GetProcessTimes / GetThreadTimes).
Both wrap a std::time::Duration inside two opaque timestamp types,
ProcessTime and ThreadTime, and compute deltas by Duration subtraction.

The embedding below models:
  - std::time::Duration as a pair of natural numbers (secs from u64,
    nanos from u32; every duration the library builds keeps nanos below
    one billion),
  - the std Duration constructor new and the std checked_sub algorithm,
  - the panicking Sub impl of std Duration (panic modelled as the error
    branch of Except String carrying the panic message),
  - each backend entry point as a function of the outcome of the single
    underlying system call (the call result is passed in as data, since
    the call itself is the only effect these functions perform).
-/

namespace CpuTime

/-- Modulus of 64-bit unsigned arithmetic. -/
def U64 : Nat := 2 ^ 64

/-- Modulus of 32-bit unsigned arithmetic. -/
def U32 : Nat := 2 ^ 32

/-- NANOS_PER_SEC from std::time. -/
def nanosPerSec : Nat := 1000000000

/-- std::time::Duration: a u64 seconds part and a u32 nanoseconds part.
The std invariant (kept by every constructor call) is nanos < nanosPerSec. -/
structure Duration where
  secs : Nat
  nanos : Nat
deriving DecidableEq, Repr

/-- Duration::new(secs, nanos): carries whole seconds contained in nanos
over into the seconds part. (The u64 checked_add in std panics when secs
overflows; no call site in this library can reach that branch, so the
model uses plain addition.) -/
def Duration.new (secs nanos : Nat) : Duration :=
  ⟨secs + nanos / nanosPerSec, nanos % nanosPerSec⟩

/-- Total nanosecond value of a duration. -/
def Duration.toNanos (d : Duration) : Nat :=
  d.secs * nanosPerSec + d.nanos

/-- Duration::checked_sub from std: subtract seconds with a u64 checked
subtraction, then the nanoseconds, borrowing one second when the
subtrahend nanoseconds are larger; None on underflow. -/
def Duration.checked_sub (a b : Duration) : Option Duration :=
  if b.secs ≤ a.secs then
    if b.nanos ≤ a.nanos then
      some (Duration.new (a.secs - b.secs) (a.nanos - b.nanos))
    else if 1 ≤ a.secs - b.secs then
      some (Duration.new (a.secs - b.secs - 1) (a.nanos + nanosPerSec - b.nanos))
    else none
  else none

/-- The Sub impl of std Duration: checked_sub followed by expect, which
panics with a fixed message on underflow. A panic is modelled as the
error branch carrying the panic message. -/
def Duration.sub (a b : Duration) : Except String Duration :=
  match a.checked_sub b with
  | some d => .ok d
  | none => .error "overflow when subtracting durations"

/-- ProcessTime from both backends: a tuple struct wrapping one Duration
(field 0, named d here). Eq, Hash and Copy are derived over this field. -/
structure ProcessTime where
  d : Duration
deriving DecidableEq, Repr

/-- ThreadTime from both backends: wraps one Duration plus a zero-sized
marker field of type PhantomData of Rc of unit (it is zero-sized and
only affects auto traits, so it is modelled as Unit here; see the
auto-trait model further down). -/
structure ThreadTime where
  d : Duration
  marker : Unit
deriving DecidableEq, Repr

/-- ProcessTime::duration_since, common text of both backends:
self.0 - timestamp.0 (the panicking std Duration subtraction). -/
def ProcessTime.duration_since (self timestamp : ProcessTime) : Except String Duration :=
  Duration.sub self.d timestamp.d

/-- ProcessTime::as_duration, common text of both backends. -/
def ProcessTime.as_duration (self : ProcessTime) : Duration :=
  self.d

/-- ThreadTime::duration_since, common text of both backends:
self.0 - timestamp.0 (the panicking std Duration subtraction). -/
def ThreadTime.duration_since (self timestamp : ThreadTime) : Except String Duration :=
  Duration.sub self.d timestamp.d

/-- ThreadTime::as_duration, common text of both backends. -/
def ThreadTime.as_duration (self : ThreadTime) : Duration :=
  self.d

/-- The io::Error value built by Error::last_os_error(): it carries the
platform last-error code (errno on POSIX, GetLastError on Windows). -/
structure OsError where
  code : Int
deriving DecidableEq, Repr

/-- Value of an i64 reinterpreted as u64 (the Rust cast, two's
complement, i.e. reduction modulo 2 to the 64). -/
def u64OfInt (x : Int) : Nat :=
  (x % (U64 : Int)).toNat

/-- Value of an i64 truncated to u32 (the Rust cast: reduction modulo
2 to the 32). -/
def u32OfInt (x : Int) : Nat :=
  (x % (U32 : Int)).toNat

namespace Posix

/-- libc timespec: tv_sec (time_t) and tv_nsec (long), both signed. -/
structure Timespec where
  tv_sec : Int
  tv_nsec : Int
deriving DecidableEq, Repr

/-- Outcome of one clock_gettime call: either it returned -1 (and the
platform last-error code is errno), or it returned 0 and filled the
timespec. The call is the only effect of try_now, so the embedding takes
the outcome as input. -/
inductive ClockOutcome where
  | fail (errno : Int)
  | ok (time : Timespec)
deriving DecidableEq, Repr

/-- ProcessTime::try_now (POSIX): one clock_gettime on
CLOCK_PROCESS_CPUTIME_ID; on -1 return Err(last_os_error), otherwise
Ok(ProcessTime(Duration::new(tv_sec as u64, tv_nsec as u32))). -/
def ProcessTime.try_now (r : ClockOutcome) : Except OsError ProcessTime :=
  match r with
  | .fail errno => .error ⟨errno⟩
  | .ok time => .ok ⟨Duration.new (u64OfInt time.tv_sec) (u32OfInt time.tv_nsec)⟩

/-- The fixed message of the expect call in ProcessTime::now (POSIX). -/
def ProcessTime.now_message : String := "CLOCK_PROCESS_CPUTIME_ID unsupported"

/-- ProcessTime::now (POSIX): try_now with expect; a panic is modelled
as the error branch carrying the fixed expect message. -/
def ProcessTime.now (r : ClockOutcome) : Except String ProcessTime :=
  match ProcessTime.try_now r with
  | .ok t => .ok t
  | .error _ => .error ProcessTime.now_message

/-- ProcessTime::try_elapsed (POSIX):
Ok(Self::try_now()?.duration_since(*self)). The outer error branch is a
panic from the Duration subtraction; the inner one the propagated OS
error. -/
def ProcessTime.try_elapsed (r : ClockOutcome) (self : ProcessTime) :
    Except String (Except OsError Duration) :=
  match ProcessTime.try_now r with
  | .error e => .ok (.error e)
  | .ok n =>
    match n.duration_since self with
    | .error m => .error m
    | .ok d => .ok (.ok d)

/-- ProcessTime::elapsed (POSIX): Self::now().duration_since(*self);
the error branch is a panic, either from now or from the subtraction. -/
def ProcessTime.elapsed (r : ClockOutcome) (self : ProcessTime) :
    Except String Duration :=
  match ProcessTime.now r with
  | .error m => .error m
  | .ok n => n.duration_since self

/-- ThreadTime::try_now (POSIX): one clock_gettime on
CLOCK_THREAD_CPUTIME_ID; same conversion as the process variant. -/
def ThreadTime.try_now (r : ClockOutcome) : Except OsError ThreadTime :=
  match r with
  | .fail errno => .error ⟨errno⟩
  | .ok time => .ok ⟨Duration.new (u64OfInt time.tv_sec) (u32OfInt time.tv_nsec), ()⟩

/-- The fixed message of the expect call in ThreadTime::now (POSIX),
exactly as written in the source: it names the process clock id. -/
def ThreadTime.now_message : String := "CLOCK_PROCESS_CPUTIME_ID unsupported"

/-- ThreadTime::now (POSIX): try_now with expect. -/
def ThreadTime.now (r : ClockOutcome) : Except String ThreadTime :=
  match ThreadTime.try_now r with
  | .ok t => .ok t
  | .error _ => .error ThreadTime.now_message

/-- ThreadTime::try_elapsed (POSIX):
Ok(ThreadTime::try_now()?.duration_since(*self)). -/
def ThreadTime.try_elapsed (r : ClockOutcome) (self : ThreadTime) :
    Except String (Except OsError Duration) :=
  match ThreadTime.try_now r with
  | .error e => .ok (.error e)
  | .ok n =>
    match n.duration_since self with
    | .error m => .error m
    | .ok d => .ok (.ok d)

/-- ThreadTime::elapsed (POSIX): Self::now().duration_since(*self). -/
def ThreadTime.elapsed (r : ClockOutcome) (self : ThreadTime) :
    Except String Duration :=
  match ThreadTime.now r with
  | .error m => .error m
  | .ok n => n.duration_since self

end Posix

namespace Windows

/-- winapi FILETIME: two u32 halves of a 100ns tick count. -/
structure FILETIME where
  dwLowDateTime : Nat
  dwHighDateTime : Nat
deriving DecidableEq, Repr

/-- The zero() helper of the Windows backend. -/
def zero : FILETIME :=
  { dwLowDateTime := 0, dwHighDateTime := 0 }

/-- to_duration from the Windows backend: rebuild each u64 tick count as
(high << 32) + low, sum kernel and user ticks, and convert 100ns ticks
to Duration::new(sum / 10_000_000, (sum * 100) % 1_000_000_000).
The additions and the multiplication by 100 are u64 operations and wrap
modulo 2 to the 64 (the shift and the + low cannot wrap while the halves
are u32 values, but the reductions are written out so the definition is
total on Nat inputs). -/
def to_duration (kernel_time user_time : FILETIME) : Duration :=
  let kns100 := ((kernel_time.dwHighDateTime <<< 32) + kernel_time.dwLowDateTime) % U64
  let uns100 := ((user_time.dwHighDateTime <<< 32) + user_time.dwLowDateTime) % U64
  Duration.new (((kns100 + uns100) % U64) / 10000000)
    ((((kns100 + uns100) % U64) * 100) % U64 % 1000000000)

/-- Outcome of one GetProcessTimes / GetThreadTimes call: either it
returned 0 (failure, with the platform last-error code), or it returned
nonzero and filled the kernel-time and user-time FILETIME values. -/
inductive TimesOutcome where
  | fail (errcode : Int)
  | ok (kernel_time user_time : FILETIME)
deriving DecidableEq, Repr

/-- ProcessTime::try_now (Windows): one GetProcessTimes on the current
process; on 0 return Err(last_os_error), otherwise
Ok(Self(to_duration(kernel_time, user_time))). -/
def ProcessTime.try_now (r : TimesOutcome) : Except OsError ProcessTime :=
  match r with
  | .fail errcode => .error ⟨errcode⟩
  | .ok kernel_time user_time => .ok ⟨to_duration kernel_time user_time⟩

/-- The fixed message of the expect call in ProcessTime::now (Windows). -/
def ProcessTime.now_message : String := "GetProcessTimes failed"

/-- ProcessTime::now (Windows): try_now with expect. -/
def ProcessTime.now (r : TimesOutcome) : Except String ProcessTime :=
  match ProcessTime.try_now r with
  | .ok t => .ok t
  | .error _ => .error ProcessTime.now_message

/-- ProcessTime::try_elapsed (Windows):
Ok(Self::try_now()?.duration_since(*self)). -/
def ProcessTime.try_elapsed (r : TimesOutcome) (self : ProcessTime) :
    Except String (Except OsError Duration) :=
  match ProcessTime.try_now r with
  | .error e => .ok (.error e)
  | .ok n =>
    match n.duration_since self with
    | .error m => .error m
    | .ok d => .ok (.ok d)

/-- ProcessTime::elapsed (Windows): Self::now().duration_since(*self). -/
def ProcessTime.elapsed (r : TimesOutcome) (self : ProcessTime) :
    Except String Duration :=
  match ProcessTime.now r with
  | .error m => .error m
  | .ok n => n.duration_since self

/-- ThreadTime::try_now (Windows): one GetThreadTimes on the current
thread; same shape as the process variant. -/
def ThreadTime.try_now (r : TimesOutcome) : Except OsError ThreadTime :=
  match r with
  | .fail errcode => .error ⟨errcode⟩
  | .ok kernel_time user_time => .ok ⟨to_duration kernel_time user_time, ()⟩

/-- The fixed message of the expect call in ThreadTime::now (Windows). -/
def ThreadTime.now_message : String := "GetThreadTimes failed"

/-- ThreadTime::now (Windows): try_now with expect. -/
def ThreadTime.now (r : TimesOutcome) : Except String ThreadTime :=
  match ThreadTime.try_now r with
  | .ok t => .ok t
  | .error _ => .error ThreadTime.now_message

/-- ThreadTime::try_elapsed (Windows):
Ok(Self::try_now()?.duration_since(*self)). -/
def ThreadTime.try_elapsed (r : TimesOutcome) (self : ThreadTime) :
    Except String (Except OsError Duration) :=
  match ThreadTime.try_now r with
  | .error e => .ok (.error e)
  | .ok n =>
    match n.duration_since self with
    | .error m => .error m
    | .ok d => .ok (.ok d)

/-- ThreadTime::elapsed (Windows): Self::now().duration_since(*self). -/
def ThreadTime.elapsed (r : TimesOutcome) (self : ThreadTime) :
    Except String Duration :=
  match ThreadTime.now r with
  | .error m => .error m
  | .ok n => n.duration_since self

end Windows

/-!
Model of the Rust auto traits Send and Sync for the concrete types of
this library. Rust derives them structurally: a struct is Send (resp.
Sync) exactly when every field is; PhantomData of T has exactly the
auto traits of T; Rc of T is neither Send nor Sync (negative impls in
std); the primitive integer types are both. ThreadTime opts out through
its PhantomData of Rc of unit field, exactly as the source comment
(makes type non-sync and non-send) says.
-/

/-- The pair of auto-trait memberships of a Rust type. -/
structure AutoTraits where
  isSend : Bool
  isSync : Bool
deriving DecidableEq, Repr

/-- Auto traits of a struct with two fields: the conjunction of the
fields, which is how the Rust compiler derives auto traits. -/
def AutoTraits.inter (a b : AutoTraits) : AutoTraits :=
  ⟨a.isSend && b.isSend, a.isSync && b.isSync⟩

/-- u64 is Send and Sync. -/
def u64Traits : AutoTraits := ⟨true, true⟩

/-- u32 is Send and Sync. -/
def u32Traits : AutoTraits := ⟨true, true⟩

/-- Rc of unit is neither Send nor Sync (std negative impls). -/
def rcUnitTraits : AutoTraits := ⟨false, false⟩

/-- PhantomData of T has exactly the auto traits of T. -/
def phantomTraits (t : AutoTraits) : AutoTraits := t

/-- std Duration holds a u64 and a u32. -/
def durationTraits : AutoTraits := u64Traits.inter u32Traits

/-- ProcessTime holds a single Duration. -/
def processTimeTraits : AutoTraits := durationTraits

/-- ThreadTime holds a Duration and a PhantomData of Rc of unit. -/
def threadTimeTraits : AutoTraits :=
  durationTraits.inter (phantomTraits rcUnitTraits)

/-!
Arithmetic facts about the embedded std Duration operations, shared by
the claim theorems below.
-/

/-- Duration::new never loses nanoseconds: the total nanosecond value of
new s n is s seconds plus n nanoseconds. -/
theorem Duration.toNanos_new (s n : Nat) :
    (Duration.new s n).toNanos = s * nanosPerSec + n := by
  simp only [Duration.new, Duration.toNanos, nanosPerSec]
  omega

/-- checked_sub succeeds on well-ordered operands with the exact
nanosecond difference (operands with the std nanos invariant). -/
theorem Duration.checked_sub_eq_some (a b : Duration)
    (ha : a.nanos < nanosPerSec) (hb : b.nanos < nanosPerSec)
    (h : b.toNanos ≤ a.toNanos) :
    ∃ d, a.checked_sub b = some d ∧ d.toNanos = a.toNanos - b.toNanos := by
  simp only [Duration.toNanos, nanosPerSec] at h ⊢
  simp only [nanosPerSec] at ha hb
  unfold Duration.checked_sub
  split
  · split
    · refine ⟨_, rfl, ?_⟩
      simp only [Duration.new, Duration.toNanos, nanosPerSec]
      omega
    · split
      · refine ⟨_, rfl, ?_⟩
        simp only [Duration.new, Duration.toNanos, nanosPerSec]
        omega
      · exfalso; omega
  · exfalso; omega

/-- checked_sub underflows (returns none) exactly on wrongly ordered
operands (operands with the std nanos invariant). -/
theorem Duration.checked_sub_eq_none (a b : Duration)
    (ha : a.nanos < nanosPerSec) (hb : b.nanos < nanosPerSec)
    (h : a.toNanos < b.toNanos) :
    a.checked_sub b = none := by
  simp only [Duration.toNanos, nanosPerSec] at h
  simp only [nanosPerSec] at ha hb
  unfold Duration.checked_sub
  split
  · split
    · exfalso; omega
    · split
      · exfalso; omega
      · rfl
  · rfl

/-- The u64 cast is the identity on in-range natural values. -/
theorem u64OfInt_ofNat (m : Nat) (hm : m < U64) : u64OfInt (m : Int) = m := by
  unfold u64OfInt
  rw [Int.emod_eq_of_lt (Int.ofNat_nonneg m) (by exact_mod_cast hm)]
  simp

/-- The u32 cast is the identity on in-range natural values. -/
theorem u32OfInt_ofNat (m : Nat) (hm : m < U32) : u32OfInt (m : Int) = m := by
  unfold u32OfInt
  rw [Int.emod_eq_of_lt (Int.ofNat_nonneg m) (by exact_mod_cast hm)]
  simp

/-!
The claim theorems.
-/

/-- Claim C1, counterexample to the claim as stated: duration_since is
claimed to be unable to fail and to silently produce an invalid result
when the operands are passed in the wrong order. On the code, calling
duration_since with a one-second timestamp as the second operand and a
zero timestamp as the first does fail: the std Duration subtraction
panics (modelled as the error branch carrying the panic message) instead
of silently returning any result. -/
theorem c1_counterexample :
    (ProcessTime.mk (Duration.new 0 0)).duration_since
      (ProcessTime.mk (Duration.new 1 0)) =
      .error "overflow when subtracting durations" := by
  rfl

/-- Claim C1 (amended): for same-variant timestamps of either backend,
duration_since is a pure subtraction of the two wrapped duration values
(no I/O): with operands in the right order it returns their exact
difference, and with operands in the wrong order (second wrapped
duration greater than the first) it panics with the std subtraction
overflow message rather than returning a checked error value or a
silently wrapped result. -/
theorem c1_duration_since_behavior (x y : Duration)
    (hx : x.nanos < nanosPerSec) (hy : y.nanos < nanosPerSec) :
    (y.toNanos ≤ x.toNanos →
      ∃ d, (ProcessTime.mk x).duration_since (ProcessTime.mk y) = .ok d ∧
        (ThreadTime.mk x ()).duration_since (ThreadTime.mk y ()) = .ok d ∧
        d.toNanos = x.toNanos - y.toNanos) ∧
    (x.toNanos < y.toNanos →
      (ProcessTime.mk x).duration_since (ProcessTime.mk y) =
        .error "overflow when subtracting durations" ∧
      (ThreadTime.mk x ()).duration_since (ThreadTime.mk y ()) =
        .error "overflow when subtracting durations") := by
  constructor
  · intro h
    obtain ⟨d, hd, hval⟩ := Duration.checked_sub_eq_some x y hx hy h
    exact ⟨d, by simp [ProcessTime.duration_since, Duration.sub, hd],
      by simp [ThreadTime.duration_since, Duration.sub, hd], hval⟩
  · intro h
    have hn := Duration.checked_sub_eq_none x y hx hy h
    constructor <;>
      simp [ProcessTime.duration_since, ThreadTime.duration_since, Duration.sub, hn]

/-- Witness for the amended C1 theorem at concrete wrongly-ordered
inputs: two seconds minus five seconds panics on both variants. -/
theorem c1_witness :
    (ProcessTime.mk (Duration.new 2 0)).duration_since
      (ProcessTime.mk (Duration.new 5 0)) =
      .error "overflow when subtracting durations" ∧
    (ThreadTime.mk (Duration.new 2 0) ()).duration_since
      (ThreadTime.mk (Duration.new 5 0) ()) =
      .error "overflow when subtracting durations" :=
  (c1_duration_since_behavior (Duration.new 2 0) (Duration.new 5 0)
    (by decide) (by decide)).2 (by decide)

/-- Claim C3, evaluation at the bug: the POSIX ThreadTime::now panic
message names the process clock id, not the thread clock id its own doc
comment names — it is the same string as the ProcessTime::now message,
so the thread-capability abort is not distinguished from the process
one. (The Windows backend messages do distinguish the two calls.) -/
theorem c3_posix_thread_now_message :
    Posix.ThreadTime.now_message = Posix.ProcessTime.now_message ∧
    Posix.ThreadTime.now_message = "CLOCK_PROCESS_CPUTIME_ID unsupported" ∧
    (∀ e : Int, Posix.ThreadTime.now (.fail e) =
      .error "CLOCK_PROCESS_CPUTIME_ID unsupported") ∧
    Windows.ProcessTime.now_message = "GetProcessTimes failed" ∧
    Windows.ThreadTime.now_message = "GetThreadTimes failed" :=
  ⟨rfl, rfl, fun _ => rfl, rfl, rfl⟩

/-- Claim C4: each try_now returns the platform last OS error exactly
when its single underlying system call reports failure (clock_gettime
returning -1, GetProcessTimes or GetThreadTimes returning 0), with no
retry, and otherwise wraps the duration converted from the values the
call produced — on POSIX a Duration built directly from the returned
seconds and nanoseconds (only the u64 and u32 casts, no scaling), on
Windows the to_duration conversion of the two FILETIME values. -/
theorem c4_try_now_behavior :
    (∀ e, Posix.ProcessTime.try_now (.fail e) = .error ⟨e⟩) ∧
    (∀ t, Posix.ProcessTime.try_now (.ok t) =
      .ok ⟨Duration.new (u64OfInt t.tv_sec) (u32OfInt t.tv_nsec)⟩) ∧
    (∀ e, Posix.ThreadTime.try_now (.fail e) = .error ⟨e⟩) ∧
    (∀ t, Posix.ThreadTime.try_now (.ok t) =
      .ok ⟨Duration.new (u64OfInt t.tv_sec) (u32OfInt t.tv_nsec), ()⟩) ∧
    (∀ e, Windows.ProcessTime.try_now (.fail e) = .error ⟨e⟩) ∧
    (∀ k u, Windows.ProcessTime.try_now (.ok k u) =
      .ok ⟨Windows.to_duration k u⟩) ∧
    (∀ e, Windows.ThreadTime.try_now (.fail e) = .error ⟨e⟩) ∧
    (∀ k u, Windows.ThreadTime.try_now (.ok k u) =
      .ok ⟨Windows.to_duration k u, ()⟩) :=
  ⟨fun _ => rfl, fun _ => rfl, fun _ => rfl, fun _ => rfl,
   fun _ => rfl, fun _ _ => rfl, fun _ => rfl, fun _ _ => rfl⟩

/-- Claim C2: for FILETIME inputs (u32 halves), to_duration rebuilds
each 64-bit tick count as high shifted left by 32 plus low, sums kernel
and user ticks modulo 2 to the 64, and returns the duration whose
seconds part is that combined count divided by 10000000 and whose
nanoseconds part is the combined count scaled by 100 in wrapping u64
arithmetic, reduced modulo 1000000000. -/
theorem c2_to_duration_formula (k u : Windows.FILETIME)
    (hkl : k.dwLowDateTime < U32) (hkh : k.dwHighDateTime < U32)
    (hul : u.dwLowDateTime < U32) (huh : u.dwHighDateTime < U32) :
    (Windows.to_duration k u).secs =
      (k.dwHighDateTime * 2 ^ 32 + k.dwLowDateTime +
        (u.dwHighDateTime * 2 ^ 32 + u.dwLowDateTime)) % U64 / 10000000 ∧
    (Windows.to_duration k u).nanos =
      (k.dwHighDateTime * 2 ^ 32 + k.dwLowDateTime +
        (u.dwHighDateTime * 2 ^ 32 + u.dwLowDateTime)) % U64 * 100 % U64 %
        1000000000 := by
  have h32 : (2 : Nat) ^ 32 = 4294967296 := by norm_num
  have h64 : U64 = 18446744073709551616 := by norm_num [U64]
  simp only [U32, h32] at hkl hkh hul huh
  simp only [Windows.to_duration, Nat.shiftLeft_eq, h32, h64]
  have hk : (k.dwHighDateTime * 4294967296 + k.dwLowDateTime) %
      18446744073709551616 =
      k.dwHighDateTime * 4294967296 + k.dwLowDateTime :=
    Nat.mod_eq_of_lt (by omega)
  have hu : (u.dwHighDateTime * 4294967296 + u.dwLowDateTime) %
      18446744073709551616 =
      u.dwHighDateTime * 4294967296 + u.dwLowDateTime :=
    Nat.mod_eq_of_lt (by omega)
  rw [hk, hu]
  generalize (k.dwHighDateTime * 4294967296 + k.dwLowDateTime +
      (u.dwHighDateTime * 4294967296 + u.dwLowDateTime)) %
      18446744073709551616 = c
  simp only [Duration.new, nanosPerSec]
  constructor
  · omega
  · omega

/-- Witness for C2 at concrete FILETIME values. -/
theorem c2_witness :
    (Windows.to_duration ⟨1, 2⟩ ⟨3, 4⟩).secs =
      (2 * 2 ^ 32 + 1 + (4 * 2 ^ 32 + 3)) % U64 / 10000000 ∧
    (Windows.to_duration ⟨1, 2⟩ ⟨3, 4⟩).nanos =
      (2 * 2 ^ 32 + 1 + (4 * 2 ^ 32 + 3)) % U64 * 100 % U64 % 1000000000 :=
  c2_to_duration_formula ⟨1, 2⟩ ⟨3, 4⟩ (by decide) (by decide) (by decide) (by decide)

/-- Claim C5, counterexample to the claim as stated: the claim asserts
that for every raw platform time value the Windows conversion is within
100ns of the exact interval. At the valid FILETIME pair kernel = zero,
user = (low 0, high 2 to the 26) — a combined tick count of 2 to the
58, an exact interval of 2 to the 58 times 100 nanoseconds — the u64
scaling by 100 inside to_duration wraps modulo 2 to the 64 and corrupts
the sub-second component: the produced duration misses the exact
interval by 290448384 nanoseconds (about 0.29 s), far beyond 100ns.
The three statements give the code result, the exact interval described
by the input, and the failure of the claimed bound. -/
theorem c5_counterexample :
    (Windows.to_duration Windows.zero ⟨0, 67108864⟩).toNanos =
      28823037615461622784 ∧
    (67108864 * 2 ^ 32 + 0) * 100 = 28823037615171174400 ∧
    ¬ (28823037615461622784 - 28823037615171174400 < 100) :=
  ⟨rfl, by norm_num, by norm_num⟩

/-- Claim C5 (amended): for an exact elapsed interval of N nanoseconds
below 2 to the 64 — the region where the u64 scaling by 100 inside
to_duration cannot wrap — the POSIX conversion (seconds N / 1e9,
nanoseconds N mod 1e9, fed through try_now) represents N exactly
(within the stated 1ns resolution), and the Windows conversion (the
interval truncated to 100ns ticks, split into FILETIME halves and fed
through try_now) yields the interval truncated to a multiple of 100ns —
within 100ns of the exact interval, so the two backends agree within
the coarser stated resolution. Beyond that range the wrapping multiply
breaks the bound, as the counterexample above shows. -/
theorem c5_cross_backend_agreement (N : Nat) (hN : N < U64) :
    ∃ dP dW : Duration,
      Posix.ProcessTime.try_now
        (.ok ⟨((N / 1000000000 : Nat) : Int), ((N % 1000000000 : Nat) : Int)⟩) =
        .ok ⟨dP⟩ ∧
      Windows.ProcessTime.try_now
        (.ok Windows.zero ⟨N / 100 % U32, N / 100 / U32⟩) = .ok ⟨dW⟩ ∧
      dP.toNanos = N ∧
      dW.toNanos = N / 100 * 100 ∧
      N - dW.toNanos < 100 ∧
      dP.toNanos - dW.toNanos < 100 := by
  have h64 : U64 = 18446744073709551616 := by norm_num [U64]
  have h32 : (2 : Nat) ^ 32 = 4294967296 := by norm_num
  have h32n : U32 = 4294967296 := by norm_num [U32]
  have hNlit : N < 18446744073709551616 := by rw [h64] at hN; exact hN
  have hsec : N / 1000000000 < U64 := by rw [h64]; omega
  have hns : N % 1000000000 < U32 := by rw [h32n]; omega
  have hdP : (Duration.new (N / 1000000000) (N % 1000000000)).toNanos = N := by
    rw [Duration.toNanos_new]
    simp only [nanosPerSec]
    omega
  have hdW : (Windows.to_duration Windows.zero
      ⟨N / 100 % U32, N / 100 / U32⟩).toNanos = N / 100 * 100 := by
    simp only [Windows.to_duration, Windows.zero, Nat.shiftLeft_eq, h64, h32n, h32]
    have hzero : (0 * 4294967296 + 0) % 18446744073709551616 = 0 := by norm_num
    have huns : N / 100 / 4294967296 * 4294967296 + N / 100 % 4294967296 =
        N / 100 := by omega
    have hmod : N / 100 % 18446744073709551616 = N / 100 :=
      Nat.mod_eq_of_lt (by omega)
    rw [hzero, huns, hmod, Nat.zero_add, hmod]
    have hwrap : N / 100 * 100 % 18446744073709551616 = N / 100 * 100 :=
      Nat.mod_eq_of_lt (by omega)
    rw [hwrap, Duration.toNanos_new]
    simp only [nanosPerSec]
    generalize N / 100 = t
    omega
  refine ⟨Duration.new (N / 1000000000) (N % 1000000000),
    Windows.to_duration Windows.zero ⟨N / 100 % U32, N / 100 / U32⟩,
    ?_, rfl, hdP, hdW, ?_, ?_⟩
  · simp only [Posix.ProcessTime.try_now]
    rw [u64OfInt_ofNat _ hsec, u32OfInt_ofNat _ hns]
  · rw [hdW]; omega
  · rw [hdP, hdW]; omega

/-- Witness for C5 at a concrete interval. -/
theorem c5_witness :
    ∃ dP dW : Duration,
      Posix.ProcessTime.try_now
        (.ok ⟨((1234567891234 / 1000000000 : Nat) : Int),
          ((1234567891234 % 1000000000 : Nat) : Int)⟩) = .ok ⟨dP⟩ ∧
      Windows.ProcessTime.try_now
        (.ok Windows.zero
          ⟨1234567891234 / 100 % U32, 1234567891234 / 100 / U32⟩) = .ok ⟨dW⟩ ∧
      dP.toNanos = 1234567891234 ∧
      dW.toNanos = 1234567891234 / 100 * 100 ∧
      1234567891234 - dW.toNanos < 100 ∧
      dP.toNanos - dW.toNanos < 100 :=
  c5_cross_backend_agreement 1234567891234 (by norm_num [U64])

/-- Claim C6: for same-variant timestamps of either backend whose
subtraction is well-ordered, duration_since returns exactly the result
of subtracting the as_duration values, which is their exact nanosecond
difference. -/
theorem c6_additivity (x y : Duration)
    (hx : x.nanos < nanosPerSec) (hy : y.nanos < nanosPerSec)
    (h : y.toNanos ≤ x.toNanos) :
    ∃ d, (ProcessTime.mk x).duration_since (ProcessTime.mk y) = .ok d ∧
      (ThreadTime.mk x ()).duration_since (ThreadTime.mk y ()) = .ok d ∧
      Duration.sub (ProcessTime.mk x).as_duration (ProcessTime.mk y).as_duration =
        .ok d ∧
      Duration.sub (ThreadTime.mk x ()).as_duration (ThreadTime.mk y ()).as_duration =
        .ok d ∧
      d.toNanos = x.toNanos - y.toNanos := by
  obtain ⟨d, hd, hval⟩ := Duration.checked_sub_eq_some x y hx hy h
  refine ⟨d, ?_, ?_, ?_, ?_, hval⟩ <;>
    simp [ProcessTime.duration_since, ThreadTime.duration_since,
      ProcessTime.as_duration, ThreadTime.as_duration, Duration.sub, hd]

/-- Witness for C6 at concrete well-ordered inputs. -/
theorem c6_witness :
    ∃ d, (ProcessTime.mk (Duration.new 5 500)).duration_since
        (ProcessTime.mk (Duration.new 3 200)) = .ok d ∧
      (ThreadTime.mk (Duration.new 5 500) ()).duration_since
        (ThreadTime.mk (Duration.new 3 200) ()) = .ok d ∧
      Duration.sub (ProcessTime.mk (Duration.new 5 500)).as_duration
        (ProcessTime.mk (Duration.new 3 200)).as_duration = .ok d ∧
      Duration.sub (ThreadTime.mk (Duration.new 5 500) ()).as_duration
        (ThreadTime.mk (Duration.new 3 200) ()).as_duration = .ok d ∧
      d.toNanos = (Duration.new 5 500).toNanos - (Duration.new 3 200).toNanos :=
  c6_additivity (Duration.new 5 500) (Duration.new 3 200)
    (by decide) (by decide) (by decide)

/-- Claim C7: any timestamp of either variant compared to itself yields
the zero duration (duration_since does not panic there). -/
theorem c7_self_consistency (x : Duration) :
    (ProcessTime.mk x).duration_since (ProcessTime.mk x) = .ok ⟨0, 0⟩ ∧
    (ThreadTime.mk x ()).duration_since (ThreadTime.mk x ()) = .ok ⟨0, 0⟩ := by
  have h : x.checked_sub x = some ⟨0, 0⟩ := by
    unfold Duration.checked_sub
    simp [Nat.sub_self, Duration.new]
  constructor <;>
    simp [ProcessTime.duration_since, ThreadTime.duration_since, Duration.sub, h]

/-- Claim C8, counterexample to the claim as stated: elapsed is claimed
to panic exactly when now panics. On the code, with a successful clock
sample of zero and a stored timestamp of one second, now succeeds, yet
elapsed panics, because the subtraction of the stored timestamp from
the fresh sample underflows. -/
theorem c8_counterexample :
    Posix.ProcessTime.now (.ok ⟨0, 0⟩) = .ok ⟨Duration.new 0 0⟩ ∧
    Posix.ProcessTime.elapsed (.ok ⟨0, 0⟩) ⟨Duration.new 1 0⟩ =
      .error "overflow when subtracting durations" := by
  constructor <;> rfl

/-- Claim C8 (amended): on every backend and for both variants, elapsed
and try_elapsed re-sample the clock through now / try_now and return
exactly the duration_since of the stored timestamp from the fresh
sample; try_elapsed propagates an error of try_now unchanged; elapsed
panics when now panics, and in addition both panic when the stored
timestamp exceeds the fresh sample (the subtraction panic), so the
equivalence of panics claimed for elapsed and now holds only under the
caller contract that the stored timestamp not exceed the fresh one.
The five statements per sampler cover, in order: error propagation of
try_elapsed, its two duration_since branches, panic propagation of
elapsed, and the elapsed result equation. -/
theorem c8_elapsed_delegation (e : Int) (t : Posix.Timespec)
    (k u : Windows.FILETIME) (sP : ProcessTime) (sT : ThreadTime) :
    (Posix.ProcessTime.try_elapsed (.fail e) sP = .ok (.error ⟨e⟩)) ∧
    (∀ d, (ProcessTime.mk (Duration.new (u64OfInt t.tv_sec)
        (u32OfInt t.tv_nsec))).duration_since sP = .ok d →
      Posix.ProcessTime.try_elapsed (.ok t) sP = .ok (.ok d)) ∧
    (∀ m, (ProcessTime.mk (Duration.new (u64OfInt t.tv_sec)
        (u32OfInt t.tv_nsec))).duration_since sP = .error m →
      Posix.ProcessTime.try_elapsed (.ok t) sP = .error m) ∧
    (Posix.ProcessTime.elapsed (.fail e) sP = .error Posix.ProcessTime.now_message) ∧
    (Posix.ProcessTime.elapsed (.ok t) sP =
      (ProcessTime.mk (Duration.new (u64OfInt t.tv_sec)
        (u32OfInt t.tv_nsec))).duration_since sP) ∧
    (Posix.ThreadTime.try_elapsed (.fail e) sT = .ok (.error ⟨e⟩)) ∧
    (∀ d, (ThreadTime.mk (Duration.new (u64OfInt t.tv_sec)
        (u32OfInt t.tv_nsec)) ()).duration_since sT = .ok d →
      Posix.ThreadTime.try_elapsed (.ok t) sT = .ok (.ok d)) ∧
    (∀ m, (ThreadTime.mk (Duration.new (u64OfInt t.tv_sec)
        (u32OfInt t.tv_nsec)) ()).duration_since sT = .error m →
      Posix.ThreadTime.try_elapsed (.ok t) sT = .error m) ∧
    (Posix.ThreadTime.elapsed (.fail e) sT = .error Posix.ThreadTime.now_message) ∧
    (Posix.ThreadTime.elapsed (.ok t) sT =
      (ThreadTime.mk (Duration.new (u64OfInt t.tv_sec)
        (u32OfInt t.tv_nsec)) ()).duration_since sT) ∧
    (Windows.ProcessTime.try_elapsed (.fail e) sP = .ok (.error ⟨e⟩)) ∧
    (∀ d, (ProcessTime.mk (Windows.to_duration k u)).duration_since sP = .ok d →
      Windows.ProcessTime.try_elapsed (.ok k u) sP = .ok (.ok d)) ∧
    (∀ m, (ProcessTime.mk (Windows.to_duration k u)).duration_since sP = .error m →
      Windows.ProcessTime.try_elapsed (.ok k u) sP = .error m) ∧
    (Windows.ProcessTime.elapsed (.fail e) sP =
      .error Windows.ProcessTime.now_message) ∧
    (Windows.ProcessTime.elapsed (.ok k u) sP =
      (ProcessTime.mk (Windows.to_duration k u)).duration_since sP) ∧
    (Windows.ThreadTime.try_elapsed (.fail e) sT = .ok (.error ⟨e⟩)) ∧
    (∀ d, (ThreadTime.mk (Windows.to_duration k u) ()).duration_since sT = .ok d →
      Windows.ThreadTime.try_elapsed (.ok k u) sT = .ok (.ok d)) ∧
    (∀ m, (ThreadTime.mk (Windows.to_duration k u) ()).duration_since sT = .error m →
      Windows.ThreadTime.try_elapsed (.ok k u) sT = .error m) ∧
    (Windows.ThreadTime.elapsed (.fail e) sT =
      .error Windows.ThreadTime.now_message) ∧
    (Windows.ThreadTime.elapsed (.ok k u) sT =
      (ThreadTime.mk (Windows.to_duration k u) ()).duration_since sT) :=
  ⟨rfl,
   fun d h => by
     simp [Posix.ProcessTime.try_elapsed, Posix.ProcessTime.try_now, h],
   fun m h => by
     simp [Posix.ProcessTime.try_elapsed, Posix.ProcessTime.try_now, h],
   rfl, rfl, rfl,
   fun d h => by
     simp [Posix.ThreadTime.try_elapsed, Posix.ThreadTime.try_now, h],
   fun m h => by
     simp [Posix.ThreadTime.try_elapsed, Posix.ThreadTime.try_now, h],
   rfl, rfl, rfl,
   fun d h => by
     simp [Windows.ProcessTime.try_elapsed, Windows.ProcessTime.try_now, h],
   fun m h => by
     simp [Windows.ProcessTime.try_elapsed, Windows.ProcessTime.try_now, h],
   rfl, rfl, rfl,
   fun d h => by
     simp [Windows.ThreadTime.try_elapsed, Windows.ThreadTime.try_now, h],
   fun m h => by
     simp [Windows.ThreadTime.try_elapsed, Windows.ThreadTime.try_now, h],
   rfl, rfl⟩

/-- Witness for the amended C8 theorem: a fresh sample of 5s 7ns and a
stored zero timestamp make try_elapsed return the 5s 7ns delta. -/
theorem c8_witness :
    Posix.ProcessTime.try_elapsed (.ok ⟨5, 7⟩) (ProcessTime.mk (Duration.new 0 0)) =
      .ok (.ok (Duration.new 5 7)) :=
  ((c8_elapsed_delegation 0 ⟨5, 7⟩ ⟨0, 0⟩ ⟨0, 0⟩
      (ProcessTime.mk (Duration.new 0 0))
      (ThreadTime.mk (Duration.new 0 0) ())).2.1)
    (Duration.new 5 7) (by rfl)

/-- Claim C9: under the Rust auto-trait derivation rules, ThreadTime is
neither Send nor Sync — its PhantomData of Rc of unit marker poisons
both traits — while the plain Duration values returned by elapsed,
try_elapsed, duration_since and as_duration are Send and Sync and may
cross threads freely (ProcessTime also remains Send and Sync). -/
theorem c9_thread_confinement :
    threadTimeTraits.isSend = false ∧ threadTimeTraits.isSync = false ∧
    durationTraits.isSend = true ∧ durationTraits.isSync = true ∧
    processTimeTraits.isSend = true ∧ processTimeTraits.isSync = true := by
  decide

/-- Claim C10: the derived structural equality of both timestamp types
holds exactly when the wrapped durations (exposed by as_duration) are
equal; the zero-sized marker field of ThreadTime carries no data, so
equality depends only on the wrapped duration. -/
theorem c10_structural_equality (a b : ProcessTime) (s t : ThreadTime) :
    (a = b ↔ a.as_duration = b.as_duration) ∧
    (s = t ↔ s.as_duration = t.as_duration) := by
  constructor
  · cases a
    cases b
    simp [ProcessTime.as_duration]
  · obtain ⟨sd, sm⟩ := s
    obtain ⟨td, tm⟩ := t
    cases sm
    cases tm
    simp [ThreadTime.as_duration]

end CpuTime
